import Mathlib

/-!
# SubaddressModel (feather, `src/model/SubaddressModel.cpp`)

A shallow embedding of the table model that projects the subaddress list of a
wallet onto the row / column / role protocol of Qt, followed by theorems
about it.

* Member functions become pure functions on the model state `SubaddressModel`.
* `const` member functions return their value together with the list of
  observable events they cause (collaborator visits, diagnostics).
* Mutating member functions return the new state and the events they cause
  (calls of `Subaddress::setLabel`, emitted `dataChanged` signals).
* `int` values (rows, columns, roles) are `Int`; `quint32` / sizes are `Nat`.
-/

namespace Feather

/-! ## Qt constants and value types -/

namespace Qt

/-- Value of `Qt::DisplayRole`. -/
abbrev DisplayRole : Int := 0
/-- Value of `Qt::EditRole`. -/
abbrev EditRole : Int := 2
/-- Value of `Qt::ToolTipRole`. -/
abbrev ToolTipRole : Int := 3
/-- Value of `Qt::FontRole`. -/
abbrev FontRole : Int := 6
/-- Value of `Qt::BackgroundRole`. -/
abbrev BackgroundRole : Int := 8
/-- Value of `Qt::UserRole` (0x0100). -/
abbrev UserRole : Int := 256

/-- Bit of `Qt::ItemIsSelectable`. -/
abbrev ItemIsSelectable : Nat := 1
/-- Bit of `Qt::ItemIsEditable`. -/
abbrev ItemIsEditable : Nat := 2
/-- Bit of `Qt::ItemIsEnabled`. -/
abbrev ItemIsEnabled : Nat := 32
/-- Bit of `Qt::ItemNeverHasChildren`. -/
abbrev ItemNeverHasChildren : Nat := 128

/-- The test `QFlags::testFlag` for a single non-zero flag bit. -/
def testFlag (flags flag : Nat) : Bool := flags &&& flag == flag && (flag != 0 || flags == flag)

end Qt

/-- A colour value (`QColor`), kept abstract as its RGB number. -/
structure QColor where
  rgb : Nat
  deriving DecidableEq, Repr

/-- A font value (`QFont`), kept abstract as its description string. -/
structure QFont where
  description : String
  deriving DecidableEq, Repr

/-- The values a `QVariant` holds in this file: the default-constructed (empty,
invalid) variant, a string, a boolean, a brush of one colour, a font. -/
inductive QVariant where
  | invalid
  | string (s : String)
  | bool (b : Bool)
  | brush (c : QColor)
  | font (f : QFont)
  deriving DecidableEq, Repr

/-- The test `QVariant::isValid`: false exactly for the empty variant. -/
def QVariant.isValid : QVariant → Bool
  | QVariant.invalid => false
  | _ => true

/-- The conversion `QVariant::toString`: the held string, `true` / `false` for a
boolean, the font description for a font, and the empty string where no
conversion exists. -/
def QVariant.toString : QVariant → String
  | QVariant.invalid => ""
  | QVariant.string s => s
  | QVariant.bool b => if b then "true" else "false"
  | QVariant.brush _ => ""
  | QVariant.font f => f.description

/-- A `QModelIndex`: row, column and whether its model pointer is set. Inside
this file the only model is the subaddress model, so a set pointer means an
index of this model. -/
structure QModelIndex where
  row : Int
  column : Int
  hasModel : Bool
  deriving DecidableEq, Repr

namespace QModelIndex

/-- The default-constructed index `QModelIndex()`: row -1, column -1, no model. -/
def null : QModelIndex := ⟨-1, -1, false⟩

/-- The test `QModelIndex::isValid`: row and column non-negative, model set. -/
def isValid (index : QModelIndex) : Bool :=
  decide (0 ≤ index.row) && decide (0 ≤ index.column) && index.hasModel

end QModelIndex

/-- The call `QAbstractItemModel::createIndex(row, column)`: an index carrying
this model. -/
def createIndex (row column : Int) : QModelIndex := ⟨row, column, true⟩

/-! ## Collaborators that are not part of the translation unit -/

/-! The column enumeration `ModelColumn` is declared in the header
`SubaddressModel.h`, which is not part of the sources. -/

namespace ModelColumn

/-- Modelled from the spec: column `Index`, first of the ordered column set. -/
abbrev Index : Int := 0
/-- Modelled from the spec: column `Address`, second of the ordered column set. -/
abbrev Address : Int := 1
/-- Modelled from the spec: column `Label`, third of the ordered column set. -/
abbrev Label : Int := 2
/-- Modelled from the spec: column `isUsed`, fourth of the ordered column set. -/
abbrev isUsed : Int := 3
/-- Modelled from the spec: the enumerator `COUNT`; the column count is fixed at 4. -/
abbrev COUNT : Int := 4

end ModelColumn

/-- Modelled from the spec: the record `Monero::SubaddressRow` of the missing
wallet library, with its four fields: stable ordinal `rowId`, `address`,
mutable `label`, and the `isUsed` flag. -/
structure SubaddressRow where
  rowId : Nat
  address : String
  label : String
  isUsed : Bool
  deriving DecidableEq, Repr

/-- Modelled from the spec: the external `Subaddress` collection (its class is
not among the sources), an ordered collection of subaddress records. It lists
the records of the account the hosting caller has selected. -/
structure Subaddress where
  rows : List SubaddressRow
  deriving DecidableEq, Repr

namespace Subaddress

/-- Modelled from the spec: the query `count()`, the size of the collection. -/
def count (s : Subaddress) : Nat := s.rows.length

/-- Modelled from the spec: the query `getRow(index, visitor) -> found`. The
record at `index` is handed to the visitor when there is one (`some`), and
`found` is false otherwise (`none`). -/
def getRow (s : Subaddress) (index : Int) : Option SubaddressRow :=
  if index < 0 then none else s.rows[index.toNat]?

/-- Modelled from the spec: the command `setLabel(account, row, newLabel)`, which
writes the new label into the collection under the key `(account, row)`. The
collection lists the records of the selected account, so the write lands on
the record at position `row`; no record is written when there is none at
that position. -/
def setLabel (s : Subaddress) (_accountIndex : Nat) (row : Int) (label : String) : Subaddress :=
  if row < 0 then s
  else
    match s.rows[row.toNat]? with
    | some r => ⟨s.rows.set row.toNat { r with label := label }⟩
    | none => s

end Subaddress

/-- The helpers of `utils/Utils.h` and `utils/ColorScheme.h` that the model
calls and whose definitions are not part of the sources; they are parameters
of the embedding. -/
structure Utils where
  /-- The address-shortening transform `Utils::displayAddress`. -/
  displayAddress : String → String
  /-- The font `Utils::getMonospaceFont()`. -/
  getMonospaceFont : QFont
  /-- The colour `ColorScheme::RED.asColor(true)`. -/
  red : QColor

/-! ## Observable events -/

/-- What a member function does besides returning a value. -/
inductive Effect where
  /-- The collaborator handed the record at `index` to the visitor, or reported
  that there is none (`Subaddress::getRow`). -/
  | getRow (index : Int)
  /-- The call `Subaddress::setLabel(accountIndex, row, label)`. -/
  | setLabel (accountIndex : Nat) (row : Int) (label : String)
  /-- The signal `dataChanged(topLeft, bottomRight, roles)`. -/
  | dataChanged (topLeft bottomRight : QModelIndex) (roles : List Int)
  /-- A diagnostic written with `qCritical`. -/
  | qCritical (msg : String)
  deriving DecidableEq, Repr

/-! ## The model -/

/-- The state of a `SubaddressModel`: the collection it points at and its two
preferences. -/
structure SubaddressModel where
  m_subaddress : Subaddress
  m_showFullAddresses : Bool
  m_currentSubaddressAccount : Nat
  deriving DecidableEq, Repr

namespace SubaddressModel

/-- Embedding of `SubaddressModel::rowCount`. The declaration of `count()` is not
part of the sources; its result is taken to fit the `int` that is returned. -/
def rowCount (m : SubaddressModel) (parent : QModelIndex) : Int :=
  if parent.isValid then 0
  else (m.m_subaddress.count : Int)

/-- Embedding of `SubaddressModel::columnCount`. -/
def columnCount (_m : SubaddressModel) (parent : QModelIndex) : Int :=
  if parent.isValid then 0
  else ModelColumn.COUNT

/-- Embedding of `SubaddressModel::parseSubaddressRow`: the value, and the
diagnostic of the default branch. -/
def parseSubaddressRow (u : Utils) (m : SubaddressModel) (subaddress : SubaddressRow)
    (index : QModelIndex) (role : Int) : QVariant × List Effect :=
  if index.column = ModelColumn.Index then
    (QVariant.string ("#" ++ toString subaddress.rowId ++ " "), [])
  else if index.column = ModelColumn.Address then
    let address := subaddress.address
    let address := if !m.m_showFullAddresses && role != Qt.UserRole then u.displayAddress address
                   else address
    (QVariant.string address, [])
  else if index.column = ModelColumn.Label then
    if m.m_currentSubaddressAccount = 0 ∧ index.row = 0 then
      (QVariant.string "Primary address", [])
    else if index.row = 0 then
      (QVariant.string "Change", [])
    else
      (QVariant.string subaddress.label, [])
  else if index.column = ModelColumn.isUsed then
    (QVariant.bool subaddress.isUsed, [])
  else
    (QVariant.invalid, [Effect.qCritical ("Invalid column " ++ toString index.column)])

/-- The visitor that `SubaddressModel::data` passes to `getRow`: what it assigns
to `result` (which starts out empty), and the diagnostics it writes. -/
def dataVisitor (u : Utils) (m : SubaddressModel) (index : QModelIndex) (role : Int)
    (subaddress : SubaddressRow) : QVariant × List Effect :=
  if role = Qt.DisplayRole ∨ role = Qt.EditRole ∨ role = Qt.UserRole then
    parseSubaddressRow u m subaddress index role
  else if role = Qt.BackgroundRole then
    if index.column = ModelColumn.Address then
      if subaddress.isUsed then (QVariant.brush u.red, []) else (QVariant.invalid, [])
    else (QVariant.invalid, [])
  else if role = Qt.FontRole then
    if index.column = ModelColumn.Address then (QVariant.font u.getMonospaceFont, [])
    else (QVariant.invalid, [])
  else if role = Qt.ToolTipRole then
    if index.column = ModelColumn.Address then
      if subaddress.isUsed then (QVariant.string "This address is used.", [])
      else (QVariant.invalid, [])
    else (QVariant.invalid, [])
  else (QVariant.invalid, [])

/-- Embedding of `SubaddressModel::data`. The cast of `index.row()` to `quint64`
happens after the row was found non-negative, so it keeps the value. -/
def data (u : Utils) (m : SubaddressModel) (index : QModelIndex) (role : Int) :
    QVariant × List Effect :=
  if !index.isValid || decide (index.row < 0) || decide (index.row.toNat ≥ m.m_subaddress.count) then
    (QVariant.invalid, [])
  else
    match m.m_subaddress.getRow index.row with
    | some subaddress =>
      let r := dataVisitor u m index role subaddress
      (r.1, Effect.getRow index.row :: r.2)
    | none =>
      (QVariant.invalid,
        [Effect.getRow index.row,
         Effect.qCritical ("data: internal error: invalid index " ++ toString index.row)])

/-- Embedding of `SubaddressModel::setData`: the returned boolean, the state
afterwards, and the events caused. -/
def setData (m : SubaddressModel) (index : QModelIndex) (value : QVariant) (role : Int) :
    Bool × SubaddressModel × List Effect :=
  if index.isValid && decide (role = Qt.EditRole) then
    let row := index.row
    if index.column = ModelColumn.Label then
      let m1 := { m with m_subaddress :=
        m.m_subaddress.setLabel m.m_currentSubaddressAccount row value.toString }
      (true, m1,
        [Effect.setLabel m.m_currentSubaddressAccount row value.toString,
         Effect.dataChanged index index [Qt.DisplayRole, Qt.EditRole]])
    else
      (false, m, [])
  else
    (false, m, [])

/-- The test `QAbstractItemModel::hasIndex(row, column, parent)` of the Qt base
class, which consults the virtual `rowCount` and `columnCount`. -/
def hasIndex (m : SubaddressModel) (row column : Int) (parent : QModelIndex) : Bool :=
  if row < 0 ∨ column < 0 then false
  else decide (row < m.rowCount parent) && decide (column < m.columnCount parent)

/-- The factory `QAbstractTableModel::index(row, column, parent)` of the Qt base
class: a created index when `hasIndex` holds, the null index otherwise. -/
def index (m : SubaddressModel) (row column : Int) (parent : QModelIndex) : QModelIndex :=
  if m.hasIndex row column parent then createIndex row column else QModelIndex.null

/-- Embedding of `SubaddressModel::setShowFullAddresses`. The signal is emitted
with the default (empty) role list. -/
def setShowFullAddresses (m : SubaddressModel) (show_ : Bool) : SubaddressModel × List Effect :=
  let m1 := { m with m_showFullAddresses := show_ }
  (m1,
    [Effect.dataChanged (m1.index 0 0 QModelIndex.null)
      (m1.index (m1.rowCount QModelIndex.null - 1) (m1.columnCount QModelIndex.null - 1)
        QModelIndex.null) []])

/-- The flags `QAbstractItemModel::flags(index)` of the Qt base class. -/
def baseItemFlags (index : QModelIndex) : Nat :=
  if !index.isValid then 0
  else Qt.ItemIsSelectable ||| Qt.ItemIsEnabled

/-- The flags `QAbstractTableModel::flags(index)` of the Qt base class. -/
def baseTableFlags (index : QModelIndex) : Nat :=
  let f := baseItemFlags index
  if index.isValid then f ||| Qt.ItemNeverHasChildren else f

/-- Embedding of `SubaddressModel::flags`. -/
def flags (_m : SubaddressModel) (index : QModelIndex) : Nat :=
  if !index.isValid then Qt.ItemIsEnabled
  else if index.column = ModelColumn.Label ∧ index.row ≠ 0 then
    baseTableFlags index ||| Qt.ItemIsEditable
  else baseTableFlags index

/-- Embedding of `SubaddressModel::isShowFullAddresses`. -/
def isShowFullAddresses (m : SubaddressModel) : Bool := m.m_showFullAddresses

/-- Embedding of `SubaddressModel::setCurrentSubaddressAccount`; the argument is
a `quint32`. -/
def setCurrentSubaddressAccount (m : SubaddressModel) (accountIndex : Nat) : SubaddressModel :=
  { m with m_currentSubaddressAccount := accountIndex % 2 ^ 32 }

end SubaddressModel

/-! ## Auxiliary facts -/

/-- A valid index has a non-negative row. -/
theorem QModelIndex.row_nonneg_of_isValid (idx : QModelIndex) (hv : idx.isValid = true) :
    0 ≤ idx.row := by
  unfold QModelIndex.isValid at hv
  simp only [Bool.and_eq_true, decide_eq_true_eq] at hv
  exact hv.1.1

/-- The collection hands out the record stored at a non-negative position. -/
theorem Subaddress.getRow_of_getElem (s : Subaddress) (row : Int) (rec : SubaddressRow)
    (h0 : 0 ≤ row) (hrow : s.rows[row.toNat]? = some rec) : s.getRow row = some rec := by
  unfold Subaddress.getRow
  rw [if_neg (by omega)]
  exact hrow

/-- Inside the collection `data` is what the visitor assigns, after one visit of
the record. -/
theorem SubaddressModel.data_of_row (u : Utils) (m : SubaddressModel) (idx : QModelIndex)
    (role : Int) (rec : SubaddressRow) (hv : idx.isValid = true)
    (hrow : m.m_subaddress.rows[idx.row.toNat]? = some rec) :
    m.data u idx role
      = ((m.dataVisitor u idx role rec).1,
          Effect.getRow idx.row :: (m.dataVisitor u idx role rec).2) := by
  have h0 : 0 ≤ idx.row := idx.row_nonneg_of_isValid hv
  have hlt : idx.row.toNat < m.m_subaddress.rows.length := by
    rcases List.getElem?_eq_some.mp hrow with ⟨h, _⟩
    exact h
  unfold SubaddressModel.data
  have hc : (!idx.isValid || decide (idx.row < 0)
      || decide (idx.row.toNat ≥ m.m_subaddress.count)) = false := by
    have h1 : ¬ idx.row < 0 := by omega
    have h2 : ¬ idx.row.toNat ≥ m.m_subaddress.count := by
      unfold Subaddress.count
      omega
    simp [hv, h1, h2]
  rw [hc, Subaddress.getRow_of_getElem _ _ rec h0 hrow]
  rfl

/-- On a valid Label cell the edit role is never rejected: `setData` calls
`setLabel` with the current account and the row, emits one notification for
the cell, and returns true. -/
theorem SubaddressModel.setData_label_edit (m : SubaddressModel) (idx : QModelIndex)
    (value : QVariant) (hv : idx.isValid = true) (hcol : idx.column = ModelColumn.Label) :
    m.setData idx value Qt.EditRole
      = (true,
          { m with m_subaddress :=
              m.m_subaddress.setLabel m.m_currentSubaddressAccount idx.row value.toString },
          [Effect.setLabel m.m_currentSubaddressAccount idx.row value.toString,
           Effect.dataChanged idx idx [Qt.DisplayRole, Qt.EditRole]]) := by
  unfold SubaddressModel.setData
  simp [hv, hcol]

/-- The write `setLabel` replaces the label of the record at the position. -/
theorem Subaddress.getElem_setLabel (s : Subaddress) (account : Nat) (row : Int)
    (label : String) (rec : SubaddressRow) (h0 : 0 ≤ row)
    (hrow : s.rows[row.toNat]? = some rec) :
    (s.setLabel account row label).rows[row.toNat]? = some { rec with label := label } := by
  have hlt : row.toNat < s.rows.length := by
    rcases List.getElem?_eq_some.mp hrow with ⟨h, _⟩
    exact h
  unfold Subaddress.setLabel
  rw [if_neg (by omega), hrow]
  simp [hlt]

/-! ## Row and column counts -/

/-- Claim C10, as stated, fails: for a non-root (valid) parent `columnCount` is 0,
not 4. -/
theorem columnCount_nonroot_parent_counterexample :
    SubaddressModel.columnCount ⟨⟨[⟨0, "4AdUndXHHZ", "", false⟩]⟩, false, 0⟩ (createIndex 0 0) = 0
      ∧ SubaddressModel.columnCount ⟨⟨[⟨0, "4AdUndXHHZ", "", false⟩]⟩, false, 0⟩ (createIndex 0 0)
          ≠ 4 := by
  decide

/-- Claim C10, amended: `columnCount` is 4 for the root parent and 0 for a non-root
parent, in every state; `rowCount` is the size of the collection for the root
parent and 0 for a non-root parent. -/
theorem rowCount_columnCount_spec (m : SubaddressModel) (parent : QModelIndex) :
    m.columnCount parent = (if parent.isValid then 0 else 4)
      ∧ m.rowCount parent = (if parent.isValid then 0 else (m.m_subaddress.count : Int))
      ∧ m.columnCount QModelIndex.null = 4
      ∧ m.rowCount QModelIndex.null = (m.m_subaddress.rows.length : Int) := by
  refine ⟨rfl, rfl, rfl, rfl⟩

/-! ## Flags -/

/-- Claim C5: for every cell (a valid index), `flags` contains the enabled flag, and
contains the editable flag if and only if the column is Label and the row is
not 0. -/
theorem flags_enabled_editable (m : SubaddressModel) (idx : QModelIndex)
    (hv : idx.isValid = true) :
    Qt.testFlag (m.flags idx) Qt.ItemIsEnabled = true
      ∧ (Qt.testFlag (m.flags idx) Qt.ItemIsEditable = true
          ↔ (idx.column = ModelColumn.Label ∧ idx.row ≠ 0)) := by
  unfold SubaddressModel.flags SubaddressModel.baseTableFlags SubaddressModel.baseItemFlags
  simp only [hv, Bool.not_true, Bool.false_eq_true, if_false, if_true]
  by_cases h : idx.column = ModelColumn.Label ∧ idx.row ≠ 0
  · simp only [h, and_self, if_true, ne_eq, not_false_eq_true, iff_true]
    decide
  · simp only [h, if_false, iff_false]
    decide

/-- Witness of `flags_enabled_editable` at the cell (1, Label). -/
theorem flags_enabled_editable_witness :
    Qt.testFlag (SubaddressModel.flags ⟨⟨[]⟩, false, 0⟩ (createIndex 1 2)) Qt.ItemIsEnabled = true
      ∧ (Qt.testFlag (SubaddressModel.flags ⟨⟨[]⟩, false, 0⟩ (createIndex 1 2)) Qt.ItemIsEditable
            = true
          ↔ ((createIndex 1 2).column = ModelColumn.Label ∧ (createIndex 1 2).row ≠ 0)) :=
  flags_enabled_editable ⟨⟨[]⟩, false, 0⟩ (createIndex 1 2) (by decide)

/-! ## Writes that are rejected -/

/-- Claim C6: for a column other than Label, or a role other than the edit role,
`setData` returns false, makes no call of `setLabel`, emits no notification and
leaves the whole state (collection, account index, address preference) as it
was. -/
theorem setData_rejected (m : SubaddressModel) (idx : QModelIndex) (value : QVariant)
    (role : Int) (h : idx.column ≠ ModelColumn.Label ∨ role ≠ Qt.EditRole) :
    m.setData idx value role = (false, m, []) := by
  unfold SubaddressModel.setData
  rcases h with h | h
  · simp [h]
  · simp [h]

/-- Witness of `setData_rejected` at the cell (1, Address) with the edit role. -/
theorem setData_rejected_witness :
    SubaddressModel.setData ⟨⟨[⟨0, "4AdUndXHHZ", "", false⟩, ⟨1, "86aBcDeFgH", "rent", true⟩]⟩,
        false, 0⟩ (createIndex 1 1) (QVariant.string "x") Qt.EditRole
      = (false, ⟨⟨[⟨0, "4AdUndXHHZ", "", false⟩, ⟨1, "86aBcDeFgH", "rent", true⟩]⟩, false, 0⟩, []) :=
  setData_rejected _ (createIndex 1 1) (QVariant.string "x") Qt.EditRole (Or.inl (by decide))

/-! ## Reads outside the collection -/

/-- Claim C7: for a row index that is negative or not below `rowCount()`, `data`
returns the empty value for every column and role, visits no record and
writes no diagnostic. -/
theorem data_row_out_of_range (u : Utils) (m : SubaddressModel) (idx : QModelIndex)
    (role : Int) (h : idx.row < 0 ∨ m.rowCount QModelIndex.null ≤ idx.row) :
    m.data u idx role = (QVariant.invalid, []) := by
  unfold SubaddressModel.data
  have hc : m.rowCount QModelIndex.null = (m.m_subaddress.count : Int) := rfl
  rw [hc] at h
  have : (!idx.isValid || decide (idx.row < 0)
      || decide (idx.row.toNat ≥ m.m_subaddress.count)) = true := by
    rcases h with h | h
    · simp [h]
    · have : m.m_subaddress.count ≤ idx.row.toNat := by omega
      simp [this]
  rw [if_pos this]

/-- Witness of `data_row_out_of_range` at row 2 of a collection of two records. -/
theorem data_row_out_of_range_witness :
    SubaddressModel.data ⟨fun a => a.take 5, ⟨"monospace"⟩, ⟨16711680⟩⟩
        ⟨⟨[⟨0, "4AdUndXHHZ", "", false⟩, ⟨1, "86aBcDeFgH", "rent", true⟩]⟩, false, 0⟩
        (createIndex 2 1) Qt.DisplayRole
      = (QVariant.invalid, []) :=
  data_row_out_of_range ⟨fun a => a.take 5, ⟨"monospace"⟩, ⟨16711680⟩⟩
    ⟨⟨[⟨0, "4AdUndXHHZ", "", false⟩, ⟨1, "86aBcDeFgH", "rent", true⟩]⟩, false, 0⟩
    (createIndex 2 1) Qt.DisplayRole (Or.inr (by decide))

/-! ## Cell values -/

/-- Claim C4: on a valid Label cell the display role yields the literal
`Primary address` at row 0 of account 0, the literal `Change` at row 0 of every
other account (whatever label is stored there), and the stored label of the
record at every other row. -/
theorem data_label_display (u : Utils) (m : SubaddressModel) (idx : QModelIndex)
    (rec : SubaddressRow) (hv : idx.isValid = true) (hcol : idx.column = ModelColumn.Label)
    (hrow : m.m_subaddress.rows[idx.row.toNat]? = some rec) :
    (m.data u idx Qt.DisplayRole).1
      = QVariant.string
          (if idx.row = 0 then
            (if m.m_currentSubaddressAccount = 0 then "Primary address" else "Change")
           else rec.label) := by
  rw [SubaddressModel.data_of_row u m idx _ rec hv hrow]
  unfold SubaddressModel.dataVisitor SubaddressModel.parseSubaddressRow
  by_cases h0 : idx.row = 0
  · by_cases ha : m.m_currentSubaddressAccount = 0
    · simp [hcol, h0, ha]
    · simp [hcol, h0, ha]
  · simp [hcol, h0]

/-- Witness of `data_label_display` at row 0 of account 3, where a label is
stored that is not shown. -/
theorem data_label_display_witness :
    (SubaddressModel.data ⟨fun a => String.mk (a.data.take 5), ⟨"monospace"⟩, ⟨16711680⟩⟩
        ⟨⟨[⟨0, "4AdUndXHHZ", "stored", false⟩, ⟨1, "86aBcDeFgH", "rent", true⟩]⟩, false, 3⟩
        (createIndex 0 2) Qt.DisplayRole).1
      = QVariant.string
          (if (createIndex 0 2).row = 0 then
            (if (3 : Nat) = 0 then "Primary address" else "Change")
           else "stored") :=
  data_label_display ⟨fun a => String.mk (a.data.take 5), ⟨"monospace"⟩, ⟨16711680⟩⟩
    ⟨⟨[⟨0, "4AdUndXHHZ", "stored", false⟩, ⟨1, "86aBcDeFgH", "rent", true⟩]⟩, false, 3⟩
    (createIndex 0 2) ⟨0, "4AdUndXHHZ", "stored", false⟩ (by decide) (by decide) (by decide)

/-- Claim C2, as stated, fails: with `showFullAddresses` off, the edit role of an
Address cell yields the shortened address, not the stored one. The sample
transform keeps the first five characters. -/
theorem data_address_edit_counterexample :
    SubaddressModel.data ⟨fun a => String.mk (a.data.take 5), ⟨"monospace"⟩, ⟨16711680⟩⟩
        ⟨⟨[⟨0, "4AdUndXHHZ", "", false⟩]⟩, false, 0⟩ (createIndex 0 1) Qt.EditRole
      = (QVariant.string "4AdUn", [Effect.getRow 0])
    ∧ (SubaddressModel.data ⟨fun a => String.mk (a.data.take 5), ⟨"monospace"⟩, ⟨16711680⟩⟩
        ⟨⟨[⟨0, "4AdUndXHHZ", "", false⟩]⟩, false, 0⟩ (createIndex 0 1) Qt.EditRole).1
      ≠ QVariant.string "4AdUndXHHZ" := by
  decide

/-- Claim C2, amended: on a valid Address cell the edit role yields, like the
display role, the full stored address when `showFullAddresses` is on and the
address shortened by `Utils::displayAddress` when it is off; the role that
always yields the full stored address is the raw role `Qt::UserRole`. -/
theorem data_address_by_role (u : Utils) (m : SubaddressModel) (idx : QModelIndex)
    (rec : SubaddressRow) (hv : idx.isValid = true) (hcol : idx.column = ModelColumn.Address)
    (hrow : m.m_subaddress.rows[idx.row.toNat]? = some rec) :
    (m.data u idx Qt.EditRole).1
        = QVariant.string
            (if m.m_showFullAddresses then rec.address else u.displayAddress rec.address)
      ∧ (m.data u idx Qt.DisplayRole).1 = (m.data u idx Qt.EditRole).1
      ∧ (m.data u idx Qt.UserRole).1 = QVariant.string rec.address := by
  rw [SubaddressModel.data_of_row u m idx _ rec hv hrow,
    SubaddressModel.data_of_row u m idx _ rec hv hrow,
    SubaddressModel.data_of_row u m idx _ rec hv hrow]
  unfold SubaddressModel.dataVisitor SubaddressModel.parseSubaddressRow
  cases hs : m.m_showFullAddresses <;> simp [hcol]

/-- Witness of `data_address_by_role` at row 1 of a collection of two records. -/
theorem data_address_by_role_witness :
    (SubaddressModel.data ⟨fun a => String.mk (a.data.take 5), ⟨"monospace"⟩, ⟨16711680⟩⟩
        ⟨⟨[⟨0, "4AdUndXHHZ", "", false⟩, ⟨1, "86aBcDeFgH", "rent", true⟩]⟩, false, 0⟩
        (createIndex 1 1) Qt.EditRole).1
        = QVariant.string
            (if false then "86aBcDeFgH" else (fun a => String.mk (a.data.take 5)) "86aBcDeFgH")
      ∧ (SubaddressModel.data ⟨fun a => String.mk (a.data.take 5), ⟨"monospace"⟩, ⟨16711680⟩⟩
          ⟨⟨[⟨0, "4AdUndXHHZ", "", false⟩, ⟨1, "86aBcDeFgH", "rent", true⟩]⟩, false, 0⟩
          (createIndex 1 1) Qt.DisplayRole).1
        = (SubaddressModel.data ⟨fun a => String.mk (a.data.take 5), ⟨"monospace"⟩, ⟨16711680⟩⟩
          ⟨⟨[⟨0, "4AdUndXHHZ", "", false⟩, ⟨1, "86aBcDeFgH", "rent", true⟩]⟩, false, 0⟩
          (createIndex 1 1) Qt.EditRole).1
      ∧ (SubaddressModel.data ⟨fun a => String.mk (a.data.take 5), ⟨"monospace"⟩, ⟨16711680⟩⟩
          ⟨⟨[⟨0, "4AdUndXHHZ", "", false⟩, ⟨1, "86aBcDeFgH", "rent", true⟩]⟩, false, 0⟩
          (createIndex 1 1) Qt.UserRole).1
        = QVariant.string "86aBcDeFgH" :=
  data_address_by_role ⟨fun a => String.mk (a.data.take 5), ⟨"monospace"⟩, ⟨16711680⟩⟩
    ⟨⟨[⟨0, "4AdUndXHHZ", "", false⟩, ⟨1, "86aBcDeFgH", "rent", true⟩]⟩, false, 0⟩
    (createIndex 1 1) ⟨1, "86aBcDeFgH", "rent", true⟩ (by decide) (by decide) (by decide)

/-- Claim C8: on a valid row, for a role that is not display, edit or raw, `data`
is non-empty only in the Address column; there the background role is
non-empty exactly when the record is used, the tooltip role is the text
`This address is used.` exactly when the record is used and empty otherwise,
and the font role is always non-empty; every further role is empty in every
column. -/
theorem data_decoration_roles (u : Utils) (m : SubaddressModel) (idx : QModelIndex)
    (role : Int) (rec : SubaddressRow) (hv : idx.isValid = true)
    (hrow : m.m_subaddress.rows[idx.row.toNat]? = some rec)
    (hrole : role ≠ Qt.DisplayRole ∧ role ≠ Qt.EditRole ∧ role ≠ Qt.UserRole) :
    ((m.data u idx role).1 ≠ QVariant.invalid → idx.column = ModelColumn.Address)
      ∧ (idx.column = ModelColumn.Address → role = Qt.BackgroundRole →
          (m.data u idx role).1.isValid = rec.isUsed)
      ∧ (idx.column = ModelColumn.Address → role = Qt.ToolTipRole →
          (m.data u idx role).1
            = (if rec.isUsed then QVariant.string "This address is used."
               else QVariant.invalid)
          ∧ (m.data u idx role).1.isValid = rec.isUsed)
      ∧ (idx.column = ModelColumn.Address → role = Qt.FontRole →
          (m.data u idx role).1.isValid = true)
      ∧ (role ≠ Qt.BackgroundRole → role ≠ Qt.ToolTipRole → role ≠ Qt.FontRole →
          (m.data u idx role).1 = QVariant.invalid) := by
  obtain ⟨hd, he, hu⟩ := hrole
  rw [SubaddressModel.data_of_row u m idx _ rec hv hrow]
  unfold SubaddressModel.dataVisitor
  simp only [hd, he, hu, or_self, if_false]
  refine ⟨?_, ?_, ?_, ?_, ?_⟩
  · intro h
    by_contra hc
    apply h
    simp only [hc, if_false]
    split <;> [rfl; (split <;> [rfl; (split <;> rfl)])]
  · intro hc hr
    subst hr
    cases hused : rec.isUsed <;> simp [hc, QVariant.isValid]
  · intro hc hr
    subst hr
    cases hused : rec.isUsed <;> simp [hc, QVariant.isValid]
  · intro hc hr
    subst hr
    simp [hc, QVariant.isValid]
  · intro hb ht hf
    simp [hb, ht, hf]

/-- Witness of `data_decoration_roles` at the Address cell of a used record with
the tooltip role. -/
theorem data_decoration_roles_witness :
    (SubaddressModel.data ⟨fun a => String.mk (a.data.take 5), ⟨"monospace"⟩, ⟨16711680⟩⟩
        ⟨⟨[⟨0, "4AdUndXHHZ", "", false⟩, ⟨1, "86aBcDeFgH", "rent", true⟩]⟩, false, 0⟩
        (createIndex 1 1) Qt.ToolTipRole).1
      = QVariant.string "This address is used." :=
  by
    have h := (data_decoration_roles
      ⟨fun a => String.mk (a.data.take 5), ⟨"monospace"⟩, ⟨16711680⟩⟩
      ⟨⟨[⟨0, "4AdUndXHHZ", "", false⟩, ⟨1, "86aBcDeFgH", "rent", true⟩]⟩, false, 0⟩
      (createIndex 1 1) Qt.ToolTipRole ⟨1, "86aBcDeFgH", "rent", true⟩ (by decide) (by decide)
      (by decide)).2.2.1 (by decide) rfl
    exact h.1

/-! ## Label edits -/

/-- Claim C3: for a valid Label cell at a row other than 0 that holds a record,
`setData` with the edit role and the string `s` returns true, calls `setLabel`
with the current account index, the row and `s` (so that the record at the row
carries the label `s` afterwards), emits exactly one notification whose range
is that single cell with the roles display and edit, and `data` for the cell
and the display role then returns `s`. -/
theorem setData_label_then_data (u : Utils) (m : SubaddressModel) (idx : QModelIndex)
    (s : String) (rec : SubaddressRow) (hv : idx.isValid = true)
    (hcol : idx.column = ModelColumn.Label) (hr : idx.row ≠ 0)
    (hrow : m.m_subaddress.rows[idx.row.toNat]? = some rec) :
    m.setData idx (QVariant.string s) Qt.EditRole
        = (true,
            { m with m_subaddress :=
                m.m_subaddress.setLabel m.m_currentSubaddressAccount idx.row s },
            [Effect.setLabel m.m_currentSubaddressAccount idx.row s,
             Effect.dataChanged idx idx [Qt.DisplayRole, Qt.EditRole]])
      ∧ (m.setData idx (QVariant.string s) Qt.EditRole).2.1.m_subaddress.getRow idx.row
          = some { rec with label := s }
      ∧ ((m.setData idx (QVariant.string s) Qt.EditRole).2.1.data u idx Qt.DisplayRole).1
          = QVariant.string s := by
  have h0 : 0 ≤ idx.row := idx.row_nonneg_of_isValid hv
  have hset : m.setData idx (QVariant.string s) Qt.EditRole
      = (true,
          { m with m_subaddress :=
              m.m_subaddress.setLabel m.m_currentSubaddressAccount idx.row s },
          [Effect.setLabel m.m_currentSubaddressAccount idx.row s,
           Effect.dataChanged idx idx [Qt.DisplayRole, Qt.EditRole]]) :=
    m.setData_label_edit idx (QVariant.string s) hv hcol
  have hnew := m.m_subaddress.getElem_setLabel m.m_currentSubaddressAccount idx.row s rec h0 hrow
  refine ⟨hset, ?_, ?_⟩
  · rw [hset]
    exact Subaddress.getRow_of_getElem _ _ _ h0 hnew
  · rw [hset]
    have hnew2 : ({ m with m_subaddress :=
        m.m_subaddress.setLabel m.m_currentSubaddressAccount idx.row s }
          : SubaddressModel).m_subaddress.rows[idx.row.toNat]?
        = some { rec with label := s } := hnew
    rw [SubaddressModel.data_of_row u _ idx _ _ hv hnew2]
    unfold SubaddressModel.dataVisitor SubaddressModel.parseSubaddressRow
    simp [hcol, hr]

/-- Witness of `setData_label_then_data` at the cell (1, Label) of account 0. -/
theorem setData_label_then_data_witness :
    SubaddressModel.setData
        ⟨⟨[⟨0, "4AdUndXHHZ", "", false⟩, ⟨1, "86aBcDeFgH", "rent", true⟩]⟩, false, 0⟩
        (createIndex 1 2) (QVariant.string "new") Qt.EditRole
      = (true,
          ⟨⟨[⟨0, "4AdUndXHHZ", "", false⟩, ⟨1, "86aBcDeFgH", "new", true⟩]⟩, false, 0⟩,
          [Effect.setLabel 0 1 "new",
           Effect.dataChanged (createIndex 1 2) (createIndex 1 2) [Qt.DisplayRole, Qt.EditRole]])
    ∧ ((SubaddressModel.setData
          ⟨⟨[⟨0, "4AdUndXHHZ", "", false⟩, ⟨1, "86aBcDeFgH", "rent", true⟩]⟩, false, 0⟩
          (createIndex 1 2) (QVariant.string "new") Qt.EditRole).2.1.data
        ⟨fun a => String.mk (a.data.take 5), ⟨"monospace"⟩, ⟨16711680⟩⟩ (createIndex 1 2)
        Qt.DisplayRole).1 = QVariant.string "new" :=
  have h := setData_label_then_data
    ⟨fun a => String.mk (a.data.take 5), ⟨"monospace"⟩, ⟨16711680⟩⟩
    ⟨⟨[⟨0, "4AdUndXHHZ", "", false⟩, ⟨1, "86aBcDeFgH", "rent", true⟩]⟩, false, 0⟩
    (createIndex 1 2) "new" ⟨1, "86aBcDeFgH", "rent", true⟩ (by decide) (by decide) (by decide)
    (by decide)
  ⟨h.1, h.2.2⟩

/-- Claim C1, as stated, fails: on the valid cell (0, Label) `setData` with the edit
role returns true, calls `setLabel` for row 0 and emits a notification; the
label stored at row 0 changes from `stored` to `x`. -/
theorem setData_row0_label_counterexample :
    SubaddressModel.setData
        ⟨⟨[⟨0, "4AdUndXHHZ", "stored", false⟩, ⟨1, "86aBcDeFgH", "rent", true⟩]⟩, false, 0⟩
        (createIndex 0 2) (QVariant.string "x") Qt.EditRole
      = (true,
          ⟨⟨[⟨0, "4AdUndXHHZ", "x", false⟩, ⟨1, "86aBcDeFgH", "rent", true⟩]⟩, false, 0⟩,
          [Effect.setLabel 0 0 "x",
           Effect.dataChanged (createIndex 0 2) (createIndex 0 2)
             [Qt.DisplayRole, Qt.EditRole]]) := by
  decide

/-- Claim C1, amended: on the valid cell (0, Label) `setData` with the edit role is
not rejected. For every state, account index and value it returns true, calls
`setLabel` with the account index, row 0 and the value as a string, and emits
one notification for the cell, as on any other row. What keeps row 0 from
being edited is that `flags` does not report the cell as editable; and the
label that `data` shows for the cell is the same before and after the call. -/
theorem setData_row0_label (u : Utils) (m : SubaddressModel) (idx : QModelIndex)
    (value : QVariant) (hv : idx.isValid = true) (hcol : idx.column = ModelColumn.Label)
    (hr : idx.row = 0) :
    m.setData idx value Qt.EditRole
        = (true,
            { m with m_subaddress :=
                m.m_subaddress.setLabel m.m_currentSubaddressAccount 0 value.toString },
            [Effect.setLabel m.m_currentSubaddressAccount 0 value.toString,
             Effect.dataChanged idx idx [Qt.DisplayRole, Qt.EditRole]])
      ∧ Qt.testFlag (m.flags idx) Qt.ItemIsEditable = false
      ∧ (m.setData idx value Qt.EditRole).2.1.data u idx Qt.DisplayRole
          = m.data u idx Qt.DisplayRole := by
  have hset := m.setData_label_edit idx value hv hcol
  rw [hr] at hset
  refine ⟨hset, ?_, ?_⟩
  · unfold SubaddressModel.flags SubaddressModel.baseTableFlags SubaddressModel.baseItemFlags
    simp only [hv, hr, Bool.not_true, Bool.false_eq_true, if_false, if_true, ne_eq,
      not_true_eq_false, and_false]
    decide
  · rw [hset]
    cases hrow : m.m_subaddress.rows[idx.row.toNat]? with
    | none =>
      have hsame : m.m_subaddress.setLabel m.m_currentSubaddressAccount 0 value.toString
          = m.m_subaddress := by
        unfold Subaddress.setLabel
        rw [hr] at hrow
        have hrow2 : m.m_subaddress.rows[(0 : Int).toNat]? = none := hrow
        rw [if_neg (by omega), hrow2]
      rw [hsame]
    | some rec =>
      have h0 : 0 ≤ idx.row := idx.row_nonneg_of_isValid hv
      have hnew := m.m_subaddress.getElem_setLabel m.m_currentSubaddressAccount idx.row
        value.toString rec h0 hrow
      rw [hr] at hnew
      have hnew2 : ({ m with m_subaddress :=
          m.m_subaddress.setLabel m.m_currentSubaddressAccount 0 value.toString }
            : SubaddressModel).m_subaddress.rows[idx.row.toNat]?
          = some { rec with label := value.toString } := by
        rw [hr]
        exact hnew
      rw [SubaddressModel.data_of_row u _ idx _ _ hv hnew2,
        SubaddressModel.data_of_row u m idx _ rec hv hrow]
      unfold SubaddressModel.dataVisitor SubaddressModel.parseSubaddressRow
      simp [hcol, hr]

/-- Witness of `setData_row0_label` at the cell (0, Label) of account 0. -/
theorem setData_row0_label_witness :
    (SubaddressModel.setData
        ⟨⟨[⟨0, "4AdUndXHHZ", "stored", false⟩, ⟨1, "86aBcDeFgH", "rent", true⟩]⟩, false, 0⟩
        (createIndex 0 2) (QVariant.string "x") Qt.EditRole).1 = true
    ∧ Qt.testFlag (SubaddressModel.flags
        ⟨⟨[⟨0, "4AdUndXHHZ", "stored", false⟩, ⟨1, "86aBcDeFgH", "rent", true⟩]⟩, false, 0⟩
        (createIndex 0 2)) Qt.ItemIsEditable = false :=
  have h := setData_row0_label ⟨fun a => String.mk (a.data.take 5), ⟨"monospace"⟩, ⟨16711680⟩⟩
    ⟨⟨[⟨0, "4AdUndXHHZ", "stored", false⟩, ⟨1, "86aBcDeFgH", "rent", true⟩]⟩, false, 0⟩
    (createIndex 0 2) (QVariant.string "x") (by decide) (by decide) (by decide)
  ⟨congrArg Prod.fst h.1, h.2.1⟩

/-! ## The address preference -/

/-- Claim C9, as stated, fails on the empty collection: the one notification that
`setShowFullAddresses` emits then has the null index at both corners, and the
null index is not a valid cell. -/
theorem setShowFullAddresses_empty_counterexample :
    SubaddressModel.setShowFullAddresses ⟨⟨[]⟩, false, 0⟩ true
        = (⟨⟨[]⟩, true, 0⟩, [Effect.dataChanged QModelIndex.null QModelIndex.null []])
      ∧ QModelIndex.null.isValid = false := by
  decide

/-- Claim C9, amended: in every state `setShowFullAddresses(b)` leaves
`isShowFullAddresses() == b`, leaves the account index and the collection
unchanged, and emits exactly one notification, from `index(0, 0)` to
`index(rowCount() - 1, columnCount() - 1)`. When the collection is not empty
these corners are the valid cells (0, 0) and (rowCount() - 1, 3), and every
cell of the grid lies between them; when it is empty both are the null
index. -/
theorem setShowFullAddresses_spec (m : SubaddressModel) (b : Bool) :
    (m.setShowFullAddresses b).1.isShowFullAddresses = b
      ∧ (m.setShowFullAddresses b).1.m_currentSubaddressAccount = m.m_currentSubaddressAccount
      ∧ (m.setShowFullAddresses b).1.m_subaddress = m.m_subaddress
      ∧ (m.setShowFullAddresses b).2
          = [Effect.dataChanged
              (if m.m_subaddress.count = 0 then QModelIndex.null else createIndex 0 0)
              (if m.m_subaddress.count = 0 then QModelIndex.null
               else createIndex (m.rowCount QModelIndex.null - 1) 3) []]
      ∧ (m.m_subaddress.count ≠ 0 →
          (createIndex 0 0).isValid = true
            ∧ (createIndex (m.rowCount QModelIndex.null - 1) 3).isValid = true)
      ∧ (∀ row column : Int,
          (m.setShowFullAddresses b).1.hasIndex row column QModelIndex.null = true →
            m.m_subaddress.count ≠ 0
              ∧ 0 ≤ row ∧ row ≤ m.rowCount QModelIndex.null - 1
              ∧ 0 ≤ column ∧ column ≤ 3) := by
  have hnull : QModelIndex.null.isValid = false := by decide
  have hrc : m.rowCount QModelIndex.null = (m.m_subaddress.count : Int) := rfl
  refine ⟨rfl, rfl, rfl, ?_, ?_, ?_⟩
  · unfold SubaddressModel.setShowFullAddresses SubaddressModel.index SubaddressModel.hasIndex
      SubaddressModel.rowCount SubaddressModel.columnCount
    simp only [hnull, Bool.false_eq_true, if_false]
    by_cases hc : m.m_subaddress.count = 0
    · simp [hc]
    · have h1 : (0 : Int) < (m.m_subaddress.count : Int) := by omega
      have h2 : ¬ ((m.m_subaddress.count : Int) - 1 < 0) := by omega
      simp [hc, h1, h2]
      rfl
  · intro hc
    rw [hrc]
    unfold QModelIndex.isValid createIndex
    have h2 : (0 : Int) ≤ (m.m_subaddress.count : Int) - 1 := by omega
    simp [h2]
  · intro row column h
    rw [hrc]
    unfold SubaddressModel.hasIndex SubaddressModel.rowCount SubaddressModel.columnCount at h
    simp only [hnull, Bool.false_eq_true, if_false] at h
    by_cases hneg : row < 0 ∨ column < 0
    · simp [hneg] at h
    · rw [if_neg hneg] at h
      simp only [Bool.and_eq_true, decide_eq_true_eq] at h
      have hsame : ({ m with m_showFullAddresses := b } : SubaddressModel).m_subaddress.count
          = m.m_subaddress.count := rfl
      have h1 : row < (m.m_subaddress.count : Int) := by
        have := h.1
        unfold SubaddressModel.setShowFullAddresses at this
        simpa using this
      have h3 : column < 4 := h.2
      refine ⟨?_, ?_, ?_, ?_, ?_⟩ <;> omega

/-- Witness of `setShowFullAddresses_spec` on a collection of two records: the
notification runs from the cell (0, 0) to the cell (1, 3), which the grid
has. -/
theorem setShowFullAddresses_spec_witness :
    (SubaddressModel.setShowFullAddresses
        ⟨⟨[⟨0, "4AdUndXHHZ", "", false⟩, ⟨1, "86aBcDeFgH", "rent", true⟩]⟩, false, 0⟩ true).2
      = [Effect.dataChanged (createIndex 0 0) (createIndex 1 3) []]
    ∧ (createIndex 0 0).isValid = true
    ∧ (createIndex
        (SubaddressModel.rowCount
          ⟨⟨[⟨0, "4AdUndXHHZ", "", false⟩, ⟨1, "86aBcDeFgH", "rent", true⟩]⟩, false, 0⟩
          QModelIndex.null - 1) 3).isValid = true :=
  have h := setShowFullAddresses_spec
    ⟨⟨[⟨0, "4AdUndXHHZ", "", false⟩, ⟨1, "86aBcDeFgH", "rent", true⟩]⟩, false, 0⟩ true
  ⟨h.2.2.2.1, h.2.2.2.2.1 (by decide)⟩

end Feather
